import Mathlib

/-!
# Replication controller reconciliation — shallow embedding

This file embeds the replica-count reconciliation core of the repository
(`pkg/registry/pod/rest.go`, `package controller` part: `ReplicationManager`,
`syncReplicationController`, `filterActivePods`, `createReplica`,
`watchControllers`) as executable Lean definitions, and proves the
specification's claims about it.

Modelling conventions:
- Go maps (`map[string]string`, possibly nil) are `Option (List (String × String))`
  with a replace-or-append insertion.
- The cluster API client is an external collaborator: the result of
  `kubeClient.ListPods` is an input (`Except String (List Pod)`), and the
  outcome of each individual `CreatePod` / `DeletePod` call is an input
  predicate (`Nat → Bool`, call index ↦ does it fail), since the code only
  logs / discards those outcomes.
- Resource versions (Go `uint64`) and the resumption cursor are modelled as
  `Nat`; `uint64` wraparound at `2^64` is unreachable for etcd indices and is
  outside this model.
- The concurrent fan-out in `syncReplicationController` is modelled by the
  list of requests it dispatches (one entry per spawned goroutine); the watch
  loop by an explicit trace of actions in stream order.
-/

/-- A label map as used by Go `map[string]string`; `none` is a nil map. -/
abbrev LabelMap := List (String × String)

/-- Replace-or-append insertion, the effect of `m[k] = v` on a Go map
(keys of a Go map are unique, so replacing the first occurrence is exact). -/
def mapInsert : LabelMap → String → String → LabelMap
  | [], k, v => [(k, v)]
  | p :: rest, k, v => if p.1 = k then (k, v) :: rest else p :: mapInsert rest k v

/-- Lookup in a label map, the read side of a Go map. -/
def mapLookup (m : LabelMap) (k : String) : Option String :=
  (m.find? (fun p => p.1 = k)).map (fun p => p.2)

/-- Carrier for `api.PodSpec` from the pod template; its interior is never
inspected by the controller core, only carried into created pods. -/
structure PodSpec where
  containers : List String
deriving DecidableEq, Repr

/-- `api.Pod`: identity, labels (nil-able map), status condition, spec.
The status condition is the string-typed `api.PodCondition`. -/
structure Pod where
  id : String
  labels : Option LabelMap
  condition : String
  spec : PodSpec
deriving DecidableEq, Repr

/-- `api.PodTerminated`, the terminal condition excluded from the active set. -/
def PodTerminated : String := "Terminated"

/-- The Go zero value of `api.Pod`, used as the (never consulted) default for
out-of-range indexing in the embedding. -/
def defaultPod : Pod :=
  { id := "", labels := none, condition := "", spec := { containers := [] } }

/-- `api.PodTemplate` inside `ReplicationControllerState`: desired pod labels
(a nil-able Go map) and pod spec. -/
structure PodTemplate where
  labels : Option LabelMap
  spec : PodSpec
deriving DecidableEq, Repr

/-- `api.ReplicationControllerState` (`controllerSpec.Spec`): target replica
count (Go `int`, hence `Int`), label selector, pod template. -/
structure ReplicationControllerState where
  replicas : Int
  selector : LabelMap
  podTemplate : PodTemplate
deriving DecidableEq, Repr

/-- `api.ReplicationController`: the desired-state specification, with
identity, namespace, resource version (Go `uint64`) and desired state. -/
structure ReplicationController where
  id : String
  ns : String
  resourceVersion : Nat
  spec : ReplicationControllerState
deriving DecidableEq, Repr

/-- `ReplicationManager.filterActivePods`: keep the pods whose status condition
is not `api.PodTerminated`. -/
def filterActivePods (pods : List Pod) : List Pod :=
  pods.filter (fun value => PodTerminated ≠ value.condition)

/-- `RealPodControl.createReplica`: mutates the controller spec's pod-template
label map in place (when the map is non-nil) by setting
`"replicationController" ↦ controllerSpec.ID`, then builds the pod to create
from the (now mutated) template. Returns the caller-visible mutated spec and
the pod handed to `kubeClient.CreatePod`; the create call's error is only
logged, so no error is returned. -/
def createReplica (controllerSpec : ReplicationController) :
    ReplicationController × Pod :=
  let labels :=
    match controllerSpec.spec.podTemplate.labels with
    | some m => some (mapInsert m "replicationController" controllerSpec.id)
    | none => none
  let mutatedSpec :=
    { controllerSpec with
        spec := { controllerSpec.spec with
          podTemplate := { controllerSpec.spec.podTemplate with labels := labels } } }
  let pod : Pod :=
    { id := ""
      labels := mutatedSpec.spec.podTemplate.labels
      condition := ""
      spec := mutatedSpec.spec.podTemplate.spec }
  (mutatedSpec, pod)

/-- The loop indices `0, 1, ..., diff-1` used by the deletion branch of
`syncReplicationController` to index `filteredList`, where
`diff = activeLen - replicas`. Empty when `diff ≤ 0`. -/
def deletionIndices (activeLen : Nat) (replicas : Int) : List Nat :=
  let diff : Int := (activeLen : Int) - replicas
  if diff > 0 then List.range diff.toNat else []

/-- The observable effects of one `syncReplicationController` call: the spec
argument of each dispatched `createReplica` goroutine, the pod ID of each
dispatched `deletePod` goroutine, and how many of those individual remediation
calls failed (their errors are only logged / discarded by the code). -/
structure SyncEffects where
  creates : List ReplicationController
  deletes : List String
  failedCalls : Nat
deriving DecidableEq, Repr

/-- `ReplicationManager.syncReplicationController`. The result of
`kubeClient.ListPods` is the input `listResult` (external collaborator);
`createFails i` / `deleteFails i` say whether the `i`-th individual
`CreatePod` / `DeletePod` call fails (the code logs and discards those
outcomes). Returns the list error unchanged when listing fails; otherwise
filters the active pods, computes `diff = len(filteredList) - Replicas`,
dispatches `-diff` creations (each passing `controllerSpec`) or `diff`
deletions (of `filteredList[i].ID` for `i < diff`), and returns `nil`. -/
def syncReplicationController (listResult : Except String (List Pod))
    (createFails : Nat → Bool) (deleteFails : Nat → Bool)
    (controllerSpec : ReplicationController) : Except String SyncEffects :=
  match listResult with
  | Except.error err => Except.error err
  | Except.ok items =>
    let filteredList := filterActivePods items
    let diff : Int := (filteredList.length : Int) - controllerSpec.spec.replicas
    if diff < 0 then
      let n := (-diff).toNat
      Except.ok
        { creates := List.replicate n controllerSpec
          deletes := []
          failedCalls := ((List.range n).filter createFails).length }
    else if diff > 0 then
      Except.ok
        { creates := []
          deletes :=
            (deletionIndices filteredList.length controllerSpec.spec.replicas).map
              (fun ix => (filteredList.getD ix defaultPod).id)
          failedCalls :=
            ((deletionIndices filteredList.length controllerSpec.spec.replicas).filter
              deleteFails).length }
    else
      Except.ok { creates := [], deletes := [], failedCalls := 0 }

/-- The kind tag of a `watch.Event` (`Added` / `Modified` / `Deleted`);
`watchControllers` never inspects it. -/
inductive EventKind where
  | added
  | modified
  | deleted
deriving DecidableEq, Repr

/-- The payload of a watch event: either the expected
`*api.ReplicationController`, or an object of some other kind (on which the
type assertion in `watchControllers` fails). -/
inductive WatchPayload where
  | controller (rc : ReplicationController)
  | other (desc : String)
deriving DecidableEq, Repr

/-- One delivered watch event, as read from `watching.ResultChan()`. -/
structure WatchEvent where
  kind : EventKind
  object : WatchPayload
deriving DecidableEq, Repr

/-- The externally visible steps the watch loop takes for an event, in program
order: writing the resumption cursor (`*resourceVersion = ...`) and invoking
the sync handler (`rm.syncHandler(*rc)`, whose error the loop discards). -/
inductive WatchAction where
  | setCursor (v : Nat)
  | reconcile (rc : ReplicationController)
deriving DecidableEq, Repr

/-- One iteration of the event branch of the `watchControllers` loop: an
object of unexpected kind is logged and skipped (`continue`, cursor
untouched); a `ReplicationController` first advances the cursor to
`rc.ResourceVersion + 1`, then is handed to the sync handler — regardless of
the event kind. Returns the new cursor and the actions taken, in order. -/
def processEvent (cursor : Nat) (event : WatchEvent) : Nat × List WatchAction :=
  match event.object with
  | WatchPayload.controller rc =>
    (rc.resourceVersion + 1,
      [WatchAction.setCursor (rc.resourceVersion + 1), WatchAction.reconcile rc])
  | WatchPayload.other _ => (cursor, [])

/-- The `watchControllers` loop over a finite stream of delivered events
(the stream then closes and the function returns, leaving `*resourceVersion`
at the final cursor for the supervisor's next call). -/
def processEvents (cursor : Nat) : List WatchEvent → Nat × List WatchAction
  | [] => (cursor, [])
  | event :: rest =>
    let step := processEvent cursor event
    let tail := processEvents step.1 rest
    (tail.1, step.2 ++ tail.2)

/-- The successive values written to the resumption cursor over one
`watchControllers` run, one entry per event that actually updates it. -/
def cursorUpdates (cursor : Nat) : List WatchEvent → List Nat
  | [] => []
  | event :: rest =>
    let step := processEvent cursor event
    match event.object with
    | WatchPayload.controller _ => step.1 :: cursorUpdates step.1 rest
    | WatchPayload.other _ => cursorUpdates step.1 rest

/-- The resource versions carried by the spec-payload events of a stream, in
delivery order. -/
def specVersions (events : List WatchEvent) : List Nat :=
  events.filterMap (fun event =>
    match event.object with
    | WatchPayload.controller rc => some rc.resourceVersion
    | WatchPayload.other _ => none)

/-! ## Concrete values used by witnesses and counterexamples -/

/-- A concrete pod template. -/
def demoTemplate : PodTemplate :=
  { labels := some [("app", "web")], spec := { containers := ["nginx"] } }

/-- A concrete desired-state specification with target replica count 3. -/
def demoSpec : ReplicationController :=
  { id := "web", ns := "default", resourceVersion := 7
    spec := { replicas := 3, selector := [("app", "web")], podTemplate := demoTemplate } }

/-- A concrete active pod with the given ID. -/
def demoPod (i : String) : Pod :=
  { id := i, labels := some [("app", "web")], condition := "Running"
    spec := { containers := ["nginx"] } }

/-- A concrete controller payload carrying the given resource version. -/
def rcWithVersion (v : Nat) : ReplicationController :=
  { id := "x", ns := "default", resourceVersion := v
    spec := { replicas := 1, selector := [], podTemplate := { labels := none, spec := { containers := [] } } } }

/-! ## Helper lemmas -/

/-- Indexing with a default over `range n` is `take n` when `n` is in range. -/
theorem map_getD_range_eq_take {α : Type} (l : List α) (d : α) (n : Nat)
    (h : n ≤ l.length) :
    (List.range n).map (fun i => l.getD i d) = l.take n := by
  apply List.ext_getElem
  · simp [Nat.min_eq_left h]
  · intro i h1 h2
    simp only [List.length_map, List.length_range] at h1
    have hil : i < l.length := Nat.lt_of_lt_of_le h1 h
    simp [List.getD_eq_getElem?_getD, List.getElem?_eq_getElem hil]

/-- The successive cursor values are exactly the delivered spec versions,
each incremented by one. -/
theorem cursorUpdates_eq_map_specVersions (cursor : Nat) (events : List WatchEvent) :
    cursorUpdates cursor events = (specVersions events).map (· + 1) := by
  induction events generalizing cursor with
  | nil => rfl
  | cons e rest ih =>
    cases e with
    | mk k o =>
      cases o with
      | controller rc => simp [cursorUpdates, specVersions, processEvent, ih]
      | other d => simpa [cursorUpdates, specVersions, processEvent] using ih cursor

/-! ## Claim theorems -/

/-- C1: for every `DesiredStateSpec` with target replica count `t` and an
observed active unit count `a < t`, one Reconcile call
(`syncReplicationController`) issues exactly `t - a` create requests to the
remediation executor, each passing the spec (and hence its template), and
zero delete requests. -/
theorem sync_under_target_creates (pods : List Pod) (controllerSpec : ReplicationController)
    (createFails deleteFails : Nat → Bool)
    (h : ((filterActivePods pods).length : Int) < controllerSpec.spec.replicas) :
    ∃ out,
      syncReplicationController (Except.ok pods) createFails deleteFails controllerSpec =
        Except.ok out ∧
      out.creates =
        List.replicate
          (controllerSpec.spec.replicas - ((filterActivePods pods).length : Int)).toNat
          controllerSpec ∧
      (out.creates.length : Int) =
        controllerSpec.spec.replicas - ((filterActivePods pods).length : Int) ∧
      out.deletes = [] := by
  have hd : ((filterActivePods pods).length : Int) - controllerSpec.spec.replicas < 0 := by
    omega
  have hn : -(((filterActivePods pods).length : Int) - controllerSpec.spec.replicas) =
      controllerSpec.spec.replicas - ((filterActivePods pods).length : Int) := by
    omega
  refine
    ⟨{ creates :=
          List.replicate
            (controllerSpec.spec.replicas - ((filterActivePods pods).length : Int)).toNat
            controllerSpec
       deletes := []
       failedCalls :=
          ((List.range
              (controllerSpec.spec.replicas -
                ((filterActivePods pods).length : Int)).toNat).filter createFails).length },
      ?_, rfl, ?_, rfl⟩
  · simp only [syncReplicationController, hd, if_true, hn]
  · simp only [List.length_replicate]
    omega

/-- Witness for the under-target claim: 1 active pod against target 3 yields
exactly 2 create requests and no delete requests. -/
theorem sync_under_target_creates_witness :
    ((filterActivePods [demoPod "a"]).length : Int) < demoSpec.spec.replicas ∧
    ∃ out,
      syncReplicationController (Except.ok [demoPod "a"]) (fun _ => false) (fun _ => false)
        demoSpec = Except.ok out ∧
      out.creates =
        List.replicate
          (demoSpec.spec.replicas - ((filterActivePods [demoPod "a"]).length : Int)).toNat
          demoSpec ∧
      (out.creates.length : Int) =
        demoSpec.spec.replicas - ((filterActivePods [demoPod "a"]).length : Int) ∧
      out.deletes = [] :=
  ⟨by decide,
    sync_under_target_creates [demoPod "a"] demoSpec (fun _ => false) (fun _ => false)
      (by decide)⟩

/-- C2: for every `DesiredStateSpec` (target replica count `t` non-negative,
per the data model) and an observed active unit count `a > t`, one Reconcile
call issues exactly `a - t` delete requests and zero create requests, and the
units selected for deletion are exactly the first `a - t` active units in
listing order. -/
theorem sync_over_target_deletes (pods : List Pod) (controllerSpec : ReplicationController)
    (createFails deleteFails : Nat → Bool)
    (hnn : 0 ≤ controllerSpec.spec.replicas)
    (h : controllerSpec.spec.replicas < ((filterActivePods pods).length : Int)) :
    ∃ out,
      syncReplicationController (Except.ok pods) createFails deleteFails controllerSpec =
        Except.ok out ∧
      out.creates = [] ∧
      out.deletes =
        ((filterActivePods pods).take
          (((filterActivePods pods).length : Int) - controllerSpec.spec.replicas).toNat).map
          Pod.id ∧
      (out.deletes.length : Int) =
        ((filterActivePods pods).length : Int) - controllerSpec.spec.replicas := by
  set l := filterActivePods pods with hl
  set n := (((l.length : Int) - controllerSpec.spec.replicas)).toNat with hn
  have hd2 : (l.length : Int) - controllerSpec.spec.replicas > 0 := by omega
  have hd1 : ¬ ((l.length : Int) - controllerSpec.spec.replicas < 0) := by omega
  have hnle : n ≤ l.length := by omega
  have hdel : deletionIndices l.length controllerSpec.spec.replicas = List.range n := by
    simp only [deletionIndices, hd2, if_true, hn]
  have hmap :
      (List.range n).map (fun ix => (l.getD ix defaultPod).id) = (l.take n).map Pod.id := by
    rw [← map_getD_range_eq_take l defaultPod n hnle, List.map_map]
    rfl
  refine
    ⟨{ creates := []
       deletes := (l.take n).map Pod.id
       failedCalls := ((List.range n).filter deleteFails).length },
      ?_, rfl, rfl, ?_⟩
  · simp only [syncReplicationController, hd1, hd2, if_true, if_false, ite_false, hdel, hmap]
  · simp only [List.length_map, List.length_take]
    omega

/-- Witness for the over-target claim: 5 active pods against target 3 yields
exactly 2 delete requests, naming the first two pods in listing order. -/
theorem sync_over_target_deletes_witness :
    0 ≤ demoSpec.spec.replicas ∧
    demoSpec.spec.replicas <
      ((filterActivePods [demoPod "a", demoPod "b", demoPod "c", demoPod "d", demoPod "e"]).length : Int) ∧
    ∃ out,
      syncReplicationController
        (Except.ok [demoPod "a", demoPod "b", demoPod "c", demoPod "d", demoPod "e"])
        (fun _ => false) (fun _ => false) demoSpec = Except.ok out ∧
      out.creates = [] ∧
      out.deletes =
        ((filterActivePods [demoPod "a", demoPod "b", demoPod "c", demoPod "d", demoPod "e"]).take
          (((filterActivePods [demoPod "a", demoPod "b", demoPod "c", demoPod "d", demoPod "e"]).length : Int) -
            demoSpec.spec.replicas).toNat).map Pod.id ∧
      (out.deletes.length : Int) =
        ((filterActivePods [demoPod "a", demoPod "b", demoPod "c", demoPod "d", demoPod "e"]).length : Int) -
          demoSpec.spec.replicas :=
  ⟨by decide, by decide,
    sync_over_target_deletes [demoPod "a", demoPod "b", demoPod "c", demoPod "d", demoPod "e"]
      demoSpec (fun _ => false) (fun _ => false) (by decide) (by decide)⟩

/-- C3: Reconcile (`syncReplicationController`) returns an error if and only
if the initial pod-list operation fails, and it returns that list error
unchanged; when the list succeeds it returns no error, for every combination
of individual create/delete remediation failures. -/
theorem sync_error_iff_list_failure (listResult : Except String (List Pod))
    (createFails deleteFails : Nat → Bool) (controllerSpec : ReplicationController) :
    (∀ e, syncReplicationController (Except.error e) createFails deleteFails controllerSpec =
      Except.error e) ∧
    ((∃ e, syncReplicationController listResult createFails deleteFails controllerSpec =
        Except.error e) ↔
      ∃ e, listResult = Except.error e) := by
  constructor
  · intro e
    rfl
  · cases listResult with
    | error e => simp [syncReplicationController]
    | ok items =>
      constructor
      · rintro ⟨e, he⟩
        exfalso
        simp only [syncReplicationController] at he
        split at he <;> (try split at he) <;> simp_all
      · rintro ⟨e, he⟩
        exact absurd he (by simp)

/-- C7: in a remediation batch, individual create/delete failures do not
cancel or affect the sibling operations and are not propagated: for every
`DesiredStateSpec` (target replica count non-negative, per the data model,
which keeps the deletion branch's indexing in bounds) and every combination
of individual failures, the call returns normally (`Except.ok`), dispatches
the same create and delete requests, and the number of dispatched operations
equals the full batch size `|diff|`. -/
theorem remediation_failures_confined (pods : List Pod)
    (controllerSpec : ReplicationController)
    (createFails deleteFails createFails' deleteFails' : Nat → Bool)
    (hnn : 0 ≤ controllerSpec.spec.replicas) :
    ∃ out out',
      syncReplicationController (Except.ok pods) createFails deleteFails controllerSpec =
        Except.ok out ∧
      syncReplicationController (Except.ok pods) createFails' deleteFails' controllerSpec =
        Except.ok out' ∧
      out.creates = out'.creates ∧
      out.deletes = out'.deletes ∧
      out.creates.length + out.deletes.length =
        (((filterActivePods pods).length : Int) - controllerSpec.spec.replicas).natAbs := by
  simp only [syncReplicationController]
  by_cases hlt : ((filterActivePods pods).length : Int) - controllerSpec.spec.replicas < 0
  · simp only [hlt, if_true]
    refine ⟨_, _, rfl, rfl, rfl, rfl, ?_⟩
    simp only [List.length_replicate, List.length_nil]
    omega
  · by_cases hgt : ((filterActivePods pods).length : Int) - controllerSpec.spec.replicas > 0
    · simp only [hlt, hgt, if_true, if_false, ite_false]
      refine ⟨_, _, rfl, rfl, rfl, rfl, ?_⟩
      simp only [List.length_nil, List.length_map, deletionIndices, hgt, if_true,
        List.length_range]
      omega
    · simp only [hlt, hgt, if_false, ite_false]
      refine ⟨_, _, rfl, rfl, rfl, rfl, ?_⟩
      simp only [List.length_nil]
      omega

/-- Witness for the batch-confinement claim: 1 active pod against target 3,
once with every remediation call failing and once with none failing, yields
the same normal return and the same 2 dispatched create requests. -/
theorem remediation_failures_confined_witness :
    0 ≤ demoSpec.spec.replicas ∧
    ∃ out out',
      syncReplicationController (Except.ok [demoPod "a"]) (fun _ => true) (fun _ => true)
        demoSpec = Except.ok out ∧
      syncReplicationController (Except.ok [demoPod "a"]) (fun _ => false) (fun _ => false)
        demoSpec = Except.ok out' ∧
      out.creates = out'.creates ∧
      out.deletes = out'.deletes ∧
      out.creates.length + out.deletes.length =
        (((filterActivePods [demoPod "a"]).length : Int) - demoSpec.spec.replicas).natAbs :=
  ⟨by decide,
    remediation_failures_confined [demoPod "a"] demoSpec (fun _ => true) (fun _ => true)
      (fun _ => false) (fun _ => false) (by decide)⟩

/-- C8: for every `DesiredStateSpec` whose target replica count is
non-negative, every loop index the deletion branch of
`syncReplicationController` uses to pick a unit from the filtered active-pod
list is strictly below that list's length, so the indexing is in bounds. -/
theorem deletion_indices_in_bounds (pods : List Pod)
    (controllerSpec : ReplicationController)
    (hnn : 0 ≤ controllerSpec.spec.replicas) :
    ∀ ix ∈ deletionIndices (filterActivePods pods).length controllerSpec.spec.replicas,
      ix < (filterActivePods pods).length := by
  intro ix hix
  simp only [deletionIndices] at hix
  split at hix
  · rw [List.mem_range] at hix
    omega
  · exact absurd hix (List.not_mem_nil ix)

/-- Witness for the bounds claim: with 5 active pods against target 3, the
deletion branch uses indices 0 and 1, both below 5. -/
theorem deletion_indices_in_bounds_witness :
    0 ≤ demoSpec.spec.replicas ∧
    ∀ ix ∈ deletionIndices
        (filterActivePods [demoPod "a", demoPod "b", demoPod "c", demoPod "d", demoPod "e"]).length
        demoSpec.spec.replicas,
      ix < (filterActivePods [demoPod "a", demoPod "b", demoPod "c", demoPod "d", demoPod "e"]).length :=
  ⟨by decide,
    deletion_indices_in_bounds [demoPod "a", demoPod "b", demoPod "c", demoPod "d", demoPod "e"]
      demoSpec (by decide)⟩

/-- Inserting a binding into a label map makes it the result of looking that
key up. -/
theorem mapLookup_mapInsert (m : LabelMap) (k v : String) :
    mapLookup (mapInsert m k v) k = some v := by
  induction m with
  | nil => simp [mapInsert, mapLookup]
  | cons p rest ih =>
    by_cases hk : p.1 = k
    · simp [mapInsert, mapLookup, hk]
    · simp only [mapInsert, hk, if_false, ite_false]
      simpa [mapLookup, hk] using ih

/-- C9: `createReplica` mutates the `DesiredStateSpec` it is given — whenever
the pod template's label map is non-nil, the spec the caller sees afterwards
has the binding `"replicationController" ↦ controllerSpec.ID` inserted
(or overwritten) in that label map, and the pod handed to the create call
already carries the mutated map; nothing else of the spec changes. -/
theorem createReplica_mutates_spec (controllerSpec : ReplicationController)
    (m : LabelMap) (h : controllerSpec.spec.podTemplate.labels = some m) :
    (createReplica controllerSpec).1 =
      { controllerSpec with
          spec := { controllerSpec.spec with
            podTemplate := { controllerSpec.spec.podTemplate with
              labels := some (mapInsert m "replicationController" controllerSpec.id) } } } ∧
    mapLookup (mapInsert m "replicationController" controllerSpec.id)
      "replicationController" = some controllerSpec.id ∧
    (createReplica controllerSpec).2.labels =
      some (mapInsert m "replicationController" controllerSpec.id) := by
  refine ⟨?_, mapLookup_mapInsert m "replicationController" controllerSpec.id, ?_⟩
  · simp only [createReplica, h]
  · simp only [createReplica, h]

/-- Witness for the mutation claim: on the demo spec (template labels
`{app: web}`) the caller-visible spec gains `replicationController ↦ web`. -/
theorem createReplica_mutates_spec_witness :
    demoSpec.spec.podTemplate.labels = some [("app", "web")] ∧
    ((createReplica demoSpec).1 =
      { demoSpec with
          spec := { demoSpec.spec with
            podTemplate := { demoSpec.spec.podTemplate with
              labels := some (mapInsert [("app", "web")] "replicationController" demoSpec.id) } } } ∧
    mapLookup (mapInsert [("app", "web")] "replicationController" demoSpec.id)
      "replicationController" = some demoSpec.id ∧
    (createReplica demoSpec).2.labels =
      some (mapInsert [("app", "web")] "replicationController" demoSpec.id)) :=
  ⟨by decide, createReplica_mutates_spec demoSpec [("app", "web")] (by decide)⟩

/-- C4: for every watch event carrying a `DesiredStateSpec` with resource
version `v`, the loop iteration writes `v + 1` to the resumption cursor
before invoking the Reconciler for that event (so the cursor has advanced
even if that reconciliation fails), and when that event is the last one
before the stream closes, the cursor left for the reconnect is `v + 1`. -/
theorem cursor_set_before_reconcile (cursor : Nat) (k : EventKind)
    (rc : ReplicationController) (events : List WatchEvent) :
    processEvent cursor ⟨k, WatchPayload.controller rc⟩ =
      (rc.resourceVersion + 1,
        [WatchAction.setCursor (rc.resourceVersion + 1), WatchAction.reconcile rc]) ∧
    (processEvents cursor (events ++ [⟨k, WatchPayload.controller rc⟩])).1 =
      rc.resourceVersion + 1 := by
  refine ⟨rfl, ?_⟩
  induction events generalizing cursor with
  | nil => rfl
  | cons e rest ih =>
    simp only [List.cons_append, processEvents]
    exact ih _

/-- C6: a spec-payload watch event is reconciled with the spec snapshot
embedded in the event itself — the dispatched actions are identical for all
event kinds (no branching on the kind), and a deletion event still hands the
embedded controller, with its old target replica count, to the sync
handler. -/
theorem reconcile_uses_embedded_spec (cursor : Nat) (k k' : EventKind)
    (rc : ReplicationController) :
    processEvent cursor ⟨k, WatchPayload.controller rc⟩ =
      processEvent cursor ⟨k', WatchPayload.controller rc⟩ ∧
    (processEvent cursor ⟨EventKind.deleted, WatchPayload.controller rc⟩).2 =
      [WatchAction.setCursor (rc.resourceVersion + 1), WatchAction.reconcile rc] :=
  ⟨rfl, rfl⟩

/-- C10: an event whose payload is not a `ReplicationController` is skipped:
it leaves the cursor unchanged, dispatches nothing, and the loop carries on
with the rest of the stream exactly as if the event had not been
delivered. -/
theorem skipped_event_preserves_cursor (cursor : Nat) (k : EventKind) (d : String)
    (rest : List WatchEvent) :
    processEvent cursor ⟨k, WatchPayload.other d⟩ = (cursor, []) ∧
    processEvents cursor (⟨k, WatchPayload.other d⟩ :: rest) = processEvents cursor rest :=
  ⟨rfl, rfl⟩

/-- C5 fails as stated: the loop writes `rc.ResourceVersion + 1` without
comparing it to the current cursor, so a stream delivering versions 42 then
10 drives the cursor from 43 down to 11 — the updates are not increasing. -/
theorem cursor_can_decrease :
    cursorUpdates 0
        [⟨EventKind.modified, WatchPayload.controller (rcWithVersion 42)⟩,
         ⟨EventKind.modified, WatchPayload.controller (rcWithVersion 10)⟩] = [43, 11] ∧
    ¬ List.Chain' (fun a b => a < b)
        (cursorUpdates 0
          [⟨EventKind.modified, WatchPayload.controller (rcWithVersion 42)⟩,
           ⟨EventKind.modified, WatchPayload.controller (rcWithVersion 10)⟩]) := by
  refine ⟨rfl, ?_⟩
  intro hchain
  rw [show cursorUpdates 0
      [⟨EventKind.modified, WatchPayload.controller (rcWithVersion 42)⟩,
       ⟨EventKind.modified, WatchPayload.controller (rcWithVersion 10)⟩] = [43, 11] from rfl]
    at hchain
  rcases List.chain'_cons.mp hchain with ⟨hlt, _⟩
  omega

/-- C5 amended: across one watch run the cursor updates are strictly
increasing provided the resource versions carried by the delivered spec
events are themselves strictly increasing (as an ordered watch stream
delivers them). -/
theorem cursor_increasing_of_increasing_versions (cursor : Nat)
    (events : List WatchEvent)
    (h : List.Chain' (fun a b => a < b) (specVersions events)) :
    List.Chain' (fun a b => a < b) (cursorUpdates cursor events) := by
  rw [cursorUpdates_eq_map_specVersions, List.chain'_map]
  exact List.Chain'.imp (fun a b hab => by omega) h

/-- Witness for the amended claim: versions 42 then 50 give cursor updates
43 then 51, strictly increasing. -/
theorem cursor_increasing_witness :
    List.Chain' (fun a b => a < b)
      (specVersions
        [⟨EventKind.added, WatchPayload.controller (rcWithVersion 42)⟩,
         ⟨EventKind.modified, WatchPayload.controller (rcWithVersion 50)⟩]) ∧
    List.Chain' (fun a b => a < b)
      (cursorUpdates 0
        [⟨EventKind.added, WatchPayload.controller (rcWithVersion 42)⟩,
         ⟨EventKind.modified, WatchPayload.controller (rcWithVersion 50)⟩]) :=
  ⟨by
    simp [show specVersions
        [⟨EventKind.added, WatchPayload.controller (rcWithVersion 42)⟩,
         ⟨EventKind.modified, WatchPayload.controller (rcWithVersion 50)⟩] = [42, 50] from rfl,
      List.chain'_cons],
    cursor_increasing_of_increasing_versions 0
      [⟨EventKind.added, WatchPayload.controller (rcWithVersion 42)⟩,
       ⟨EventKind.modified, WatchPayload.controller (rcWithVersion 50)⟩]
      (by
        simp [show specVersions
            [⟨EventKind.added, WatchPayload.controller (rcWithVersion 42)⟩,
             ⟨EventKind.modified, WatchPayload.controller (rcWithVersion 50)⟩] = [42, 50] from rfl,
          List.chain'_cons])⟩
